/-
Verification of the zeroconf service-discovery core (`service.go`) against
its natural-language specification.

The Go code is shallowly embedded: structs become Lean structures, methods
that mutate memoized fields become functions returning a value together with
the updated record, Go channels become an explicit state (`ChanState`)
whose `close` operation fails on an already-closed channel (modelling Go's
run-time panic on double close), and Go slices (`[]string`, `[]net.IP`) are
modelled as references into an explicit store so that the aliasing created
by a shallow struct copy is visible.
-/
import Mathlib

namespace Zeroconf

/-- Modelled from the spec: the helper `trimDot` is called by the
name-composition methods of `service.go` but its definition is not under
src. Per the spec (section 4.1), name composition "trims any existing
trailing delimiter from each input component before concatenation", the
delimiter being the dot; so `trimDot` removes every trailing dot. -/
def trimDot (s : String) : String :=
  String.mk ((s.data.reverse.dropWhile (fun c => c == '.')).reverse)

/-- `ServiceRecord` from service.go: the (Instance, Service, Domain)
identity triple together with the three private memoization fields that are
populated on the first call to the corresponding derived-name method. -/
structure ServiceRecord where
  Instance : String
  Service : String
  Domain : String
  serviceName : String
  serviceInstanceName : String
  serviceTypeName : String
deriving DecidableEq, Repr

/-- `ServiceRecord.ServiceName` from service.go: if the memo field is empty
it is set to `fmt.Sprintf("%s.%s.", trimDot(s.Service), trimDot(s.Domain))`;
the (possibly updated) field is returned. The Go method mutates the record
through its pointer receiver, so the embedding returns the updated record
alongside the string. -/
def ServiceRecord.ServiceName (s : ServiceRecord) : String × ServiceRecord :=
  if s.serviceName = "" then
    let v := trimDot s.Service ++ "." ++ trimDot s.Domain ++ "."
    (v, { s with serviceName := v })
  else
    (s.serviceName, s)

/-- `ServiceRecord.ServiceInstanceName` from service.go: returns `""` when
`Instance` is empty; otherwise memoizes
`fmt.Sprintf("%s.%s", trimDot(s.Instance), s.ServiceName())` (the inner
`ServiceName()` call may itself populate its memo field). -/
def ServiceRecord.ServiceInstanceName (s : ServiceRecord) : String × ServiceRecord :=
  if s.Instance = "" then
    ("", s)
  else if s.serviceInstanceName = "" then
    let p := s.ServiceName
    let v := trimDot s.Instance ++ "." ++ p.1
    (v, { p.2 with serviceInstanceName := v })
  else
    (s.serviceInstanceName, s)

/-- `ServiceRecord.ServiceTypeName` from service.go: memoizes
`fmt.Sprintf("_services._dns-sd._udp.%s.", domain)` where `domain` is
`"local"` unless `len(s.Domain) > 0`, in which case it is
`trimDot(s.Domain)`. -/
def ServiceRecord.ServiceTypeName (s : ServiceRecord) : String × ServiceRecord :=
  if s.serviceTypeName = "" then
    let domain := if 0 < s.Domain.length then trimDot s.Domain else "local"
    let v := "_services._dns-sd._udp." ++ domain ++ "."
    (v, { s with serviceTypeName := v })
  else
    (s.serviceTypeName, s)

/-- `NewServiceRecord` from service.go: all three memo fields start empty. -/
def NewServiceRecord (inst service domain : String) : ServiceRecord :=
  ⟨inst, service, domain, "", "", ""⟩

/-- State of a Go channel as far as `close` is concerned. -/
inductive ChanState where
  | opened
  | closed
deriving DecidableEq, Repr

/-- The error raised by Go's run time when `close` is applied to an
already-closed channel (a panic in Go). -/
inductive CloseError where
  | doubleClose
deriving DecidableEq, Repr

/-- Go's `close` on a channel: closes an open channel, panics (here: an
error value) on a closed one. -/
def closeChan : ChanState → Except CloseError ChanState
  | ChanState.opened => Except.ok ChanState.closed
  | ChanState.closed => Except.error CloseError.doubleClose

/-- `LookupParams` from service.go: an embedded `ServiceRecord`, the
`Entries` output channel (`Option` models a possibly-nil channel), the
`stopProbing` channel and the `sync.Once` guard, modelled by the Boolean
flag `once` recording whether `once.Do` has already run. -/
structure LookupParams extends ServiceRecord where
  Entries : Option ChanState
  stopProbing : ChanState
  once : Bool
deriving DecidableEq, Repr

/-- `NewLookupParams` from service.go: fresh record, caller-supplied
entries channel, freshly made (open) `stopProbing` channel, unused
`sync.Once`. -/
def NewLookupParams (inst service domain : String) (entries : Option ChanState) :
    LookupParams :=
  { toServiceRecord := NewServiceRecord inst service domain
    Entries := entries
    stopProbing := ChanState.opened
    once := false }

/-- `LookupParams.done` from service.go: `if l.Entries != nil { close(l.Entries) }`.
Note that the close is not guarded by the `sync.Once`. -/
def LookupParams.done (l : LookupParams) : Except CloseError LookupParams :=
  match l.Entries with
  | none => Except.ok l
  | some c =>
      match closeChan c with
      | Except.ok c1 => Except.ok { l with Entries := some c1 }
      | Except.error e => Except.error e

/-- `LookupParams.disableProbing` from service.go:
`l.once.Do(func() { close(l.stopProbing) })` — the close runs only the
first time. -/
def LookupParams.disableProbing (l : LookupParams) : LookupParams :=
  if l.once then l
  else { l with once := true, stopProbing := ChanState.closed }

/-- `ServiceEventType` from service.go is a string type. -/
def ServiceEventType := String
deriving instance DecidableEq, Repr for ServiceEventType

/-- The `NewOrUpdated` constant of service.go. -/
def NewOrUpdated : ServiceEventType := "NewOrUpdated"

/-- The `Removed` constant of service.go. -/
def Removed : ServiceEventType := "Removed"

/-- A `net.IP` value, as a byte sequence. -/
def IP := List Nat
deriving instance DecidableEq, Repr for IP

/-- `ServiceEntry` from service.go: an embedded `ServiceRecord` plus the
network binding and lifecycle metadata. The Go slice fields `Text`,
`AddrIPv4` and `AddrIPv6` are slice headers: copying the struct copies the
header but both copies keep pointing at the same backing array. They are
modelled as optional references (`none` = nil slice) into a `SliceStore`.
The `*time.Time` pointers become `Option Nat` instants. -/
structure ServiceEntry extends ServiceRecord where
  HostName : String
  Port : Int
  Text : Option Nat
  TTL : Nat
  AddrIPv4 : Option Nat
  AddrIPv6 : Option Nat
  eventType : ServiceEventType
  refreshTime : Option Nat
  expiryTime : Option Nat
deriving DecidableEq, Repr

/-- `ServiceEntry.EventType` from service.go: returns the stored field. -/
def ServiceEntry.EventType (s : ServiceEntry) : ServiceEventType :=
  s.eventType

/-- `NewServiceEntry` from service.go: only the embedded record is set;
every other field keeps its Go zero value (`""`, `0`, nil slices, a zero
`ServiceEventType` which is the empty string, nil time pointers). -/
def NewServiceEntry (inst service domain : String) : ServiceEntry :=
  { toServiceRecord := NewServiceRecord inst service domain
    HostName := ""
    Port := 0
    Text := none
    TTL := 0
    AddrIPv4 := none
    AddrIPv6 := none
    eventType := ""
    refreshTime := none
    expiryTime := none }

/-- The backing arrays that the slice references of a `ServiceEntry` point
into: `strData` holds `[]string` backing arrays, `ipData` holds `[]net.IP`
backing arrays. -/
structure SliceStore where
  strData : Nat → List String
  ipData : Nat → List IP

/-- Reading the `Text` slice of an entry through the store (a nil slice
reads as empty). -/
def entryText (st : SliceStore) (e : ServiceEntry) : List String :=
  match e.Text with
  | none => []
  | some r => st.strData r

/-- `copy.Text[i] = v` in Go: an element assignment through a slice header
writes into the shared backing array. -/
def setTextElem (st : SliceStore) (r : Nat) (i : Nat) (v : String) : SliceStore :=
  { st with strData := fun n => if n = r then (st.strData r).set i v else st.strData n }

/-- `entryCache` from service.go: `map[string]*ServiceEntry`, modelled as an
association list from key to the pointed-to entry value. -/
structure entryCache where
  entries : List (String × ServiceEntry)
deriving DecidableEq, Repr

/-- `Browser` from service.go: a possibly-nil reference to an `entryCache`. -/
structure Browser where
  cache : Option entryCache
deriving DecidableEq, Repr

/-- `Browser.Entries` from service.go: if the cache reference is non-nil,
append a shallow struct copy `*v` of every entry in the map to the result
(no filtering of any kind); a nil cache yields a nil slice. -/
def Browser.Entries (b : Browser) : List ServiceEntry :=
  match b.cache with
  | some c => c.entries.map (fun p => p.2)
  | none => []

/-! ### Helper lemmas about strings and the composition helpers -/

lemma append_dot_ne_empty (a : String) : a ++ "." ≠ "" := by
  intro h
  have h2 : (a ++ ".").data = ("" : String).data := by rw [h]
  simp [String.data_append] at h2

lemma append_ne_empty_of_left (a b : String) (h : a ≠ "") : a ++ b ≠ "" := by
  intro hc
  apply h
  have h2 : (a ++ b).data = ("" : String).data := by rw [hc]
  rw [String.data_append] at h2
  rcases List.append_eq_nil.mp h2 with ⟨ha, _⟩
  exact String.ext ha

lemma trimDot_append_dot (a : String) : trimDot (a ++ ".") = trimDot a := by
  simp [trimDot, String.data_append]

lemma length_pos_of_ne_empty (a : String) (h : a ≠ "") : 0 < a.length := by
  cases a with
  | mk l =>
    cases l with
    | nil => exact absurd rfl h
    | cons c cs => simp [String.length_mk]

lemma append_dot_length_pos (a : String) : 0 < (a ++ ".").length := by
  rw [String.length_append]
  have h1 : (".").length = 1 := rfl
  omega

/-- Derived-name closed form on a fresh record: ServiceName. -/
lemma serviceName_fresh (i s d : String) :
    ((NewServiceRecord i s d).ServiceName).1 = trimDot s ++ "." ++ trimDot d ++ "." := by
  simp [NewServiceRecord, ServiceRecord.ServiceName]

/-- Derived-name closed form on a fresh record: ServiceInstanceName. -/
lemma serviceInstanceName_fresh (i s d : String) (hi : i ≠ "") :
    ((NewServiceRecord i s d).ServiceInstanceName).1 =
      trimDot i ++ "." ++ (trimDot s ++ "." ++ trimDot d ++ ".") := by
  simp [NewServiceRecord, ServiceRecord.ServiceInstanceName, ServiceRecord.ServiceName, hi]

/-- Derived-name closed form on a fresh record with non-empty domain:
ServiceTypeName. -/
lemma serviceTypeName_fresh (i s d : String) (hd : 0 < d.length) :
    ((NewServiceRecord i s d).ServiceTypeName).1 =
      "_services._dns-sd._udp." ++ trimDot d ++ "." := by
  simp [NewServiceRecord, ServiceRecord.ServiceTypeName, hd]

/-! ### Claim theorems -/

/-- C6: for the record with instance "My Printer", service "_http._tcp" and
domain "local", ServiceName() is "_http._tcp.local." and
ServiceInstanceName() is "My Printer._http._tcp.local.". -/
theorem serviceRecord_concrete_names :
    ((NewServiceRecord "My Printer" "_http._tcp" "local").ServiceName).1 =
      "_http._tcp.local." ∧
    ((NewServiceRecord "My Printer" "_http._tcp" "local").ServiceInstanceName).1 =
      "My Printer._http._tcp.local." := by
  constructor <;> rfl

/-- C3: evaluating the code at the failing input (empty Domain):
ServiceName composes with the empty domain, giving "_http._tcp.." instead
of substituting the default domain "local" that the Domain field's own
comment promises; ServiceTypeName does substitute the default. -/
theorem serviceName_empty_domain_eval :
    ((NewServiceRecord "My Printer" "_http._tcp" "").ServiceName).1 = "_http._tcp.." ∧
    ((NewServiceRecord "My Printer" "_http._tcp" "").ServiceName).1 ≠ "_http._tcp.local." ∧
    ((NewServiceRecord "My Printer" "_http._tcp" "").ServiceTypeName).1 =
      "_services._dns-sd._udp.local." := by
  refine ⟨rfl, by decide, rfl⟩

/-- C7: whenever the Instance field is empty, ServiceInstanceName() returns
the empty string, whatever the other fields (including the memo fields)
hold. -/
theorem serviceInstanceName_empty_instance (service domain m1 m2 m3 : String) :
    ((ServiceRecord.mk "" service domain m1 m2 m3).ServiceInstanceName).1 = "" := by
  simp [ServiceRecord.ServiceInstanceName]

/-- C10: done() on a LookupParams whose Entries channel is nil is a safe
no-op: no close is attempted (so no panic) and the state is unchanged. -/
theorem done_nil_channel_noop (r : ServiceRecord) (sp : ChanState) (o : Bool) :
    (LookupParams.mk r none sp o).done = Except.ok (LookupParams.mk r none sp o) := rfl

/-- C2 counterexample: for a LookupParams with a non-nil open Entries
channel, the first done() closes the channel, and a second done() closes it
again — Go's run time panics on the double close, refuting the claim that
only the first call has an effect guarded by a one-time action. -/
theorem done_double_close_cex :
    (NewLookupParams "My Printer" "_http._tcp" "local" (some ChanState.opened)).done =
      Except.ok { NewLookupParams "My Printer" "_http._tcp" "local" (some ChanState.opened) with
                  Entries := some ChanState.closed } ∧
    Except.bind
        ((NewLookupParams "My Printer" "_http._tcp" "local" (some ChanState.opened)).done)
        LookupParams.done =
      Except.error CloseError.doubleClose := by
  constructor <;> rfl

/-- C2 amended: done() is not guarded by the sync.Once — the first call on
a non-nil open channel closes it, and a second call double-closes (a
panic); the one-time guard protects disableProbing, which is the idempotent
operation. -/
theorem done_first_closes_second_fails (l : LookupParams)
    (h : l.Entries = some ChanState.opened) :
    l.done = Except.ok { l with Entries := some ChanState.closed } ∧
    LookupParams.done { l with Entries := some ChanState.closed } =
      Except.error CloseError.doubleClose ∧
    (l.disableProbing).disableProbing = l.disableProbing := by
  refine ⟨?_, rfl, ?_⟩
  · simp [LookupParams.done, h, closeChan]
  · cases h2 : l.once <;> simp [LookupParams.disableProbing, h2]

/-- Witness for the amended C2 at a concrete subscription. -/
theorem done_first_closes_second_fails_witness :
    (NewLookupParams "My Printer" "_http._tcp" "local" (some ChanState.opened)).done =
      Except.ok { NewLookupParams "My Printer" "_http._tcp" "local" (some ChanState.opened) with
                  Entries := some ChanState.closed } :=
  (done_first_closes_second_fails
    (NewLookupParams "My Printer" "_http._tcp" "local" (some ChanState.opened)) rfl).1

/-- C5 counterexample: a freshly built ServiceEntry has the zero value of
ServiceEventType (the empty string) as its eventType, which is neither
NewOrUpdated nor Removed. -/
theorem newServiceEntry_eventType_cex :
    (NewServiceEntry "My Printer" "_http._tcp" "local").EventType ≠ NewOrUpdated ∧
    (NewServiceEntry "My Printer" "_http._tcp" "local").EventType ≠ Removed := by
  constructor <;> decide

/-- C5 amended: EventType() returns exactly the stored eventType field, so
its value lies in {NewOrUpdated, Removed} only if the field was set to one
of those; a freshly built NewServiceEntry carries the empty string. -/
theorem eventType_returns_stored_field :
    (∀ e : ServiceEntry, e.EventType = e.eventType) ∧
    (∀ i s d : String, (NewServiceEntry i s d).EventType = ("" : ServiceEventType)) :=
  ⟨fun _ => rfl, fun _ _ _ => rfl⟩

/-- A sample cached entry whose expiryTime (instant 0) is already in the
past at call time 1. -/
def expiredSampleEntry : ServiceEntry :=
  { NewServiceEntry "My Printer" "_http._tcp" "local" with expiryTime := some 0 }

/-- C1 counterexample: with the current time being 1, the cached entry's
expiryTime 0 lies in the past, yet Browser.Entries still returns it — the
code performs no expiry filtering on reads. -/
theorem entries_returns_expired_cex :
    expiredSampleEntry.expiryTime = some 0 ∧ (0 : Nat) < 1 ∧
    expiredSampleEntry ∈
      (Browser.mk (some (entryCache.mk
        [("My Printer._http._tcp.local.", expiredSampleEntry)]))).Entries := by
  refine ⟨rfl, by decide, ?_⟩
  simp [Browser.Entries]

/-- C1 amended: Browser.Entries returns a copy of every entry currently in
the cache map, with no filtering on expiryTime: an entry whose expiryTime
lies in the past is still included until some writer physically deletes
it. -/
theorem entries_includes_expired (c : entryCache) (k : String) (e : ServiceEntry)
    (now t : Nat) (hmem : (k, e) ∈ c.entries) (hexp : e.expiryTime = some t)
    (hpast : t < now) :
    e ∈ (Browser.mk (some c)).Entries := by
  simp [Browser.Entries, List.mem_map]
  exact ⟨k, hmem⟩

/-- Witness for the amended C1 at a concrete cache and time. -/
theorem entries_includes_expired_witness :
    expiredSampleEntry ∈
      (Browser.mk (some (entryCache.mk [("k", expiredSampleEntry)]))).Entries :=
  entries_includes_expired (entryCache.mk [("k", expiredSampleEntry)]) "k"
    expiredSampleEntry 1 0 (List.mem_singleton.mpr rfl) rfl (by decide)

/-- A store whose backing array 0 holds the single TXT string "old". -/
def sampleStore : SliceStore :=
  ⟨fun _ => ["old"], fun _ => []⟩

/-- A cached entry whose Text slice points at backing array 0. -/
def sharedTextEntry : ServiceEntry :=
  { NewServiceEntry "My Printer" "_http._tcp" "local" with Text := some 0 }

/-- C4 counterexample: the entry returned by Browser.Entries is a shallow
struct copy — its Text slice header points at the same backing array
(reference 0) as the cached entry's — so writing element 0 through the
returned copy changes what a subsequent read of the cached entry's Text
returns (from ["old"] to ["new"]). -/
theorem entries_shallow_copy_cex :
    (Browser.mk (some (entryCache.mk [("k", sharedTextEntry)]))).Entries =
      [sharedTextEntry] ∧
    entryText sampleStore sharedTextEntry = ["old"] ∧
    entryText (setTextElem sampleStore 0 0 "new") sharedTextEntry = ["new"] ∧
    (["new"] : List String) ≠ ["old"] := by
  refine ⟨rfl, rfl, rfl, by decide⟩

/-- C4 amended: Entries copies each struct, but the copies carry the very
same Text/AddrIPv4/AddrIPv6 slice references as the cached entries, and a
write through a shared reference updates the backing array that a
subsequent read of the cached entry observes. -/
theorem entries_slice_refs_shared (c : entryCache) :
    ((Browser.mk (some c)).Entries).map (fun e => (e.Text, e.AddrIPv4, e.AddrIPv6)) =
      c.entries.map (fun p => (p.2.Text, p.2.AddrIPv4, p.2.AddrIPv6)) ∧
    ∀ (st : SliceStore) (e : ServiceEntry) (r i : Nat) (v : String),
      e.Text = some r →
      entryText (setTextElem st r i v) e = (entryText st e).set i v := by
  constructor
  · simp [Browser.Entries]
  · intro st e r i v h
    simp [entryText, setTextElem, h]

/-- Witness for the amended C4 at a concrete store and entry. -/
theorem entries_slice_refs_shared_witness :
    entryText (setTextElem sampleStore 0 0 "new") sharedTextEntry =
      (entryText sampleStore sharedTextEntry).set 0 "new" :=
  (entries_slice_refs_shared (entryCache.mk [])).2 sampleStore sharedTextEntry 0 0 "new" rfl

/-- C8: for non-empty components, appending a trailing dot to the
instance, the service or the domain before constructing the record leaves
all three derived names unchanged. -/
theorem derived_names_trailing_dot_insensitive (i s d : String)
    (hi : i ≠ "") (hs : s ≠ "") (hd : d ≠ "") :
    (((NewServiceRecord (i ++ ".") s d).ServiceName).1 =
        ((NewServiceRecord i s d).ServiceName).1 ∧
      ((NewServiceRecord (i ++ ".") s d).ServiceInstanceName).1 =
        ((NewServiceRecord i s d).ServiceInstanceName).1 ∧
      ((NewServiceRecord (i ++ ".") s d).ServiceTypeName).1 =
        ((NewServiceRecord i s d).ServiceTypeName).1) ∧
    (((NewServiceRecord i (s ++ ".") d).ServiceName).1 =
        ((NewServiceRecord i s d).ServiceName).1 ∧
      ((NewServiceRecord i (s ++ ".") d).ServiceInstanceName).1 =
        ((NewServiceRecord i s d).ServiceInstanceName).1 ∧
      ((NewServiceRecord i (s ++ ".") d).ServiceTypeName).1 =
        ((NewServiceRecord i s d).ServiceTypeName).1) ∧
    (((NewServiceRecord i s (d ++ ".")).ServiceName).1 =
        ((NewServiceRecord i s d).ServiceName).1 ∧
      ((NewServiceRecord i s (d ++ ".")).ServiceInstanceName).1 =
        ((NewServiceRecord i s d).ServiceInstanceName).1 ∧
      ((NewServiceRecord i s (d ++ ".")).ServiceTypeName).1 =
        ((NewServiceRecord i s d).ServiceTypeName).1) := by
  have hdl : 0 < d.length := length_pos_of_ne_empty d hd
  refine ⟨⟨?_, ?_, ?_⟩, ⟨?_, ?_, ?_⟩, ⟨?_, ?_, ?_⟩⟩
  · rw [serviceName_fresh, serviceName_fresh]
  · rw [serviceInstanceName_fresh _ _ _ (append_dot_ne_empty i),
      serviceInstanceName_fresh _ _ _ hi, trimDot_append_dot]
  · rw [serviceTypeName_fresh _ _ _ hdl, serviceTypeName_fresh _ _ _ hdl]
  · rw [serviceName_fresh, serviceName_fresh, trimDot_append_dot]
  · rw [serviceInstanceName_fresh _ _ _ hi, serviceInstanceName_fresh _ _ _ hi,
      trimDot_append_dot]
  · rw [serviceTypeName_fresh _ _ _ hdl, serviceTypeName_fresh _ _ _ hdl]
  · rw [serviceName_fresh, serviceName_fresh, trimDot_append_dot]
  · rw [serviceInstanceName_fresh _ _ _ hi, serviceInstanceName_fresh _ _ _ hi,
      trimDot_append_dot]
  · rw [serviceTypeName_fresh _ _ _ (append_dot_length_pos d),
      serviceTypeName_fresh _ _ _ hdl, trimDot_append_dot]

/-- Witness for C8 at concrete components. -/
theorem derived_names_trailing_dot_insensitive_witness :
    ((NewServiceRecord ("My Printer" ++ ".") "_http._tcp" "local").ServiceName).1 =
      ((NewServiceRecord "My Printer" "_http._tcp" "local").ServiceName).1 :=
  (derived_names_trailing_dot_insensitive "My Printer" "_http._tcp" "local"
    (by decide) (by decide) (by decide)).1.1

/-! ### Memoization lemmas -/

lemma serviceName_fst_ne (r : ServiceRecord) : (r.ServiceName).1 ≠ "" := by
  by_cases h : r.serviceName = ""
  · simpa [ServiceRecord.ServiceName, h] using
      append_dot_ne_empty (trimDot r.Service ++ "." ++ trimDot r.Domain)
  · simpa [ServiceRecord.ServiceName, h] using h

lemma serviceName_memo_field (r : ServiceRecord) :
    (r.ServiceName).2.serviceName = (r.ServiceName).1 := by
  by_cases h : r.serviceName = "" <;> simp [ServiceRecord.ServiceName, h]

lemma serviceName_cached (r : ServiceRecord) (h : r.serviceName ≠ "") :
    r.ServiceName = (r.serviceName, r) := by
  simp [ServiceRecord.ServiceName, h]

lemma serviceName_preserves_Instance (r : ServiceRecord) :
    (r.ServiceName).2.Instance = r.Instance := by
  by_cases h : r.serviceName = "" <;> simp [ServiceRecord.ServiceName, h]

lemma serviceInstanceName_fst_ne (r : ServiceRecord) (hi : r.Instance ≠ "") :
    (r.ServiceInstanceName).1 ≠ "" := by
  by_cases h : r.serviceInstanceName = ""
  · simpa [ServiceRecord.ServiceInstanceName, hi, h] using
      append_ne_empty_of_left (trimDot r.Instance ++ ".") ((r.ServiceName).1)
        (append_dot_ne_empty (trimDot r.Instance))
  · simpa [ServiceRecord.ServiceInstanceName, hi, h] using h

lemma serviceInstanceName_memo_field (r : ServiceRecord) (hi : r.Instance ≠ "") :
    (r.ServiceInstanceName).2.serviceInstanceName = (r.ServiceInstanceName).1 := by
  by_cases h : r.serviceInstanceName = "" <;>
    simp [ServiceRecord.ServiceInstanceName, hi, h]

lemma serviceInstanceName_cached (r : ServiceRecord) (hi : r.Instance ≠ "")
    (h : r.serviceInstanceName ≠ "") :
    r.ServiceInstanceName = (r.serviceInstanceName, r) := by
  simp [ServiceRecord.ServiceInstanceName, hi, h]

lemma serviceInstanceName_preserves_Instance (r : ServiceRecord) :
    (r.ServiceInstanceName).2.Instance = r.Instance := by
  by_cases hi : r.Instance = ""
  · simp [ServiceRecord.ServiceInstanceName, hi]
  · by_cases h : r.serviceInstanceName = ""
    · simp [ServiceRecord.ServiceInstanceName, hi, h, serviceName_preserves_Instance]
    · simp [ServiceRecord.ServiceInstanceName, hi, h]

lemma serviceTypeName_fst_ne (r : ServiceRecord) : (r.ServiceTypeName).1 ≠ "" := by
  by_cases h : r.serviceTypeName = ""
  · simpa [ServiceRecord.ServiceTypeName, h] using
      append_dot_ne_empty
        ("_services._dns-sd._udp." ++
          (if 0 < r.Domain.length then trimDot r.Domain else "local"))
  · simpa [ServiceRecord.ServiceTypeName, h] using h

lemma serviceTypeName_memo_field (r : ServiceRecord) :
    (r.ServiceTypeName).2.serviceTypeName = (r.ServiceTypeName).1 := by
  by_cases h : r.serviceTypeName = "" <;> simp [ServiceRecord.ServiceTypeName, h]

lemma serviceTypeName_cached (r : ServiceRecord) (h : r.serviceTypeName ≠ "") :
    r.ServiceTypeName = (r.serviceTypeName, r) := by
  simp [ServiceRecord.ServiceTypeName, h]

/-- C9: on any record with non-empty components, the first call to a
derived-name method stores its result in the corresponding memo field of
the returned record, and a second call on that record returns exactly the
cached value with the record unchanged (the cache-hit branch: no
recomputation). -/
theorem derived_names_memoized (r : ServiceRecord)
    (hi : r.Instance ≠ "") (hs : r.Service ≠ "") (hd : r.Domain ≠ "") :
    ((r.ServiceName).2.serviceName = (r.ServiceName).1 ∧
      (r.ServiceName).2.ServiceName = ((r.ServiceName).1, (r.ServiceName).2)) ∧
    ((r.ServiceInstanceName).2.serviceInstanceName = (r.ServiceInstanceName).1 ∧
      (r.ServiceInstanceName).2.ServiceInstanceName =
        ((r.ServiceInstanceName).1, (r.ServiceInstanceName).2)) ∧
    ((r.ServiceTypeName).2.serviceTypeName = (r.ServiceTypeName).1 ∧
      (r.ServiceTypeName).2.ServiceTypeName =
        ((r.ServiceTypeName).1, (r.ServiceTypeName).2)) := by
  refine ⟨⟨serviceName_memo_field r, ?_⟩,
    ⟨serviceInstanceName_memo_field r hi, ?_⟩,
    ⟨serviceTypeName_memo_field r, ?_⟩⟩
  · rw [serviceName_cached (r.ServiceName).2
      (by rw [serviceName_memo_field]; exact serviceName_fst_ne r),
      serviceName_memo_field]
  · have hi2 : (r.ServiceInstanceName).2.Instance ≠ "" := by
      rw [serviceInstanceName_preserves_Instance]; exact hi
    have h2 : (r.ServiceInstanceName).2.serviceInstanceName ≠ "" := by
      rw [serviceInstanceName_memo_field r hi]; exact serviceInstanceName_fst_ne r hi
    rw [serviceInstanceName_cached (r.ServiceInstanceName).2 hi2 h2,
      serviceInstanceName_memo_field r hi]
  · rw [serviceTypeName_cached (r.ServiceTypeName).2
      (by rw [serviceTypeName_memo_field]; exact serviceTypeName_fst_ne r),
      serviceTypeName_memo_field]

/-- Witness for C9 at a concrete record. -/
theorem derived_names_memoized_witness :
    (((NewServiceRecord "My Printer" "_http._tcp" "local").ServiceName).2).serviceName =
      ((NewServiceRecord "My Printer" "_http._tcp" "local").ServiceName).1 :=
  (derived_names_memoized (NewServiceRecord "My Printer" "_http._tcp" "local")
    (by decide) (by decide) (by decide)).1.1

end Zeroconf
